import Mathlib

/-!
Verification development for the ScreenShotTool repository.

The definitions below are shallow embeddings of the Python sources:
  * `src/utils/hotkey_manager.py` — the debounced hotkey bridge;
  * `src/core/screenshot_manager.py` — the capture flow and overlay handling;
  * `src/core/document_manager.py` — the document save / conflict-merge engine.
-/

namespace ScreenShotTool

/-- Per-kind state of `HotkeyManager` (`src/utils/hotkey_manager.py`): the entry of
`last_hotkey_time` for one trigger kind together with its `_pending_*` flag. -/
structure HotkeyState where
  last_hotkey_time : Option ℚ
  pending : Bool
deriving DecidableEq

/-- Fresh `HotkeyManager` state for a kind: no recorded time, no pending flag. -/
def initHotkeyState : HotkeyState := ⟨none, false⟩

/-- Hook callback `emit_*_signal` (hotkey_manager.py, lines 41-51): drop the event when
a previous one of the same kind fired less than 1.0 seconds earlier, otherwise record
the firing time and set the pending flag. -/
def emit_signal (t : ℚ) (s : HotkeyState) : HotkeyState :=
  match s.last_hotkey_time with
  | some lt => if t - lt < 1 then s else ⟨some t, true⟩
  | none => ⟨some t, true⟩

/-- One tick of `check_hotkey_status` (lines 126-154) for a single kind: when the
pending flag is set, clear it and emit the signal once (one dispatched command). -/
def check_hotkey_status (s : HotkeyState) : HotkeyState × Nat :=
  if s.pending then (⟨s.last_hotkey_time, false⟩, 1) else (s, 0)

/-- An event of the trigger bridge: a hardware hook firing at a time, or a poll tick. -/
inductive HkEvent where
  | trigger (t : ℚ)
  | poll
deriving DecidableEq

/-- Run a sequence of hook firings and poll ticks, counting dispatched commands. -/
def runEvents : HotkeyState → List HkEvent → HotkeyState × Nat
  | s, [] => (s, 0)
  | s, HkEvent.trigger t :: es => runEvents (emit_signal t s) es
  | s, HkEvent.poll :: es =>
      let p := check_hotkey_status s
      let r := runEvents p.1 es
      (r.1, p.2 + r.2)

lemma runEvents_append (s : HotkeyState) (a b : List HkEvent) :
    runEvents s (a ++ b) =
      ((runEvents (runEvents s a).1 b).1,
        (runEvents s a).2 + (runEvents (runEvents s a).1 b).2) := by
  induction a generalizing s with
  | nil => simp [runEvents]
  | cons e es ih =>
    cases e with
    | trigger t => simp [runEvents, ih]
    | poll => simp [runEvents, ih, Nat.add_assoc]

lemma runEvents_single_trigger (s : HotkeyState) (t : ℚ) :
    runEvents s [HkEvent.trigger t] = (emit_signal t s, 0) := rfl

lemma runEvents_polls (s : HotkeyState) (n : Nat) :
    runEvents s (List.replicate n HkEvent.poll) =
      (⟨s.last_hotkey_time, if n = 0 then s.pending else false⟩,
        if s.pending = true ∧ 0 < n then 1 else 0) := by
  induction n generalizing s with
  | zero => simp [runEvents]
  | succ n ih =>
    cases hp : s.pending with
    | false => simp [List.replicate_succ, runEvents, check_hotkey_status, hp, ih]
    | true => simp [List.replicate_succ, runEvents, check_hotkey_status, hp, ih]

/-- C7: two hardware triggers of the same kind fired less than 1.0 seconds apart,
interleaved arbitrarily with poll ticks (with at least one poll after them), produce
exactly one dispatched command: the second firing is dropped inside the debounce
window, so the drained pending flag never yields a duplicate dispatch. -/
theorem debounce_two_triggers_one_dispatch
    (t1 t2 : ℚ) (n1 n2 n3 : Nat) (h12 : t1 ≤ t2) (hw : t2 - t1 < 1) (h3 : 0 < n3) :
    (runEvents initHotkeyState
      (List.replicate n1 HkEvent.poll ++ [HkEvent.trigger t1] ++
       List.replicate n2 HkEvent.poll ++ [HkEvent.trigger t2] ++
       List.replicate n3 HkEvent.poll)).2 = 1 := by
  simp only [runEvents_append, runEvents_single_trigger, runEvents_polls,
    initHotkeyState]
  simp only [emit_signal, if_pos hw]
  rcases Nat.eq_zero_or_pos n2 with h2 | h2 <;>
    simp_all [emit_signal, if_pos hw] <;> omega

/-- Concrete instance of C7: triggers at times 0 and 1/2 with one trailing poll. -/
theorem debounce_two_triggers_one_dispatch_witness :
    ((0 : ℚ) ≤ 1/2 ∧ (1/2 : ℚ) - 0 < 1 ∧ (0 : Nat) < 1) ∧
    (runEvents initHotkeyState
      (List.replicate 0 HkEvent.poll ++ [HkEvent.trigger 0] ++
       List.replicate 0 HkEvent.poll ++ [HkEvent.trigger (1/2)] ++
       List.replicate 1 HkEvent.poll)).2 = 1 :=
  ⟨⟨by norm_num, by norm_num, by norm_num⟩,
    debounce_two_triggers_one_dispatch 0 (1/2) 0 0 1 (by norm_num) (by norm_num)
      (by norm_num)⟩

/-- Visibility-relevant UI state touched by `ScreenshotManager`
(`src/core/screenshot_manager.py`): the working-mode flag, whether the float-ball
overlay object exists, its visibility, and the main window's visibility. -/
structure UIState where
  is_working_mode : Bool
  float_ball_present : Bool
  float_ball_visible : Bool
  main_window_visible : Bool
deriving DecidableEq

def showBall (u : UIState) : UIState := { u with float_ball_visible := true }

def hideBall (u : UIState) : UIState := { u with float_ball_visible := false }

def showMain (u : UIState) : UIState := { u with main_window_visible := true }

def hideMain (u : UIState) : UIState := { u with main_window_visible := false }

/-- Outcome of the pixel grab in `take_fullscreen_screenshot` (lines 60-71):
a valid pixmap, a null pixmap, or no primary screen (raised before grabbing). -/
inductive GrabResult where
  | ok
  | nullPixmap
  | noScreen
deriving DecidableEq

/-- Outcome of the caption dialog in `process_screenshot_with_dialog` (lines 211-232):
accepted with the save flag set, any cancel/reject outcome, or `dialog.exec_` raising. -/
inductive DialogFlow where
  | savedAccepted
  | cancelled
  | dialogError
deriving DecidableEq

/-- Result of a capture attempt: final UI state, the boolean result of the source
function, whether `grabWindow` was invoked, and whether `add_screenshot`
(the document append creating the pending edit) was reached. -/
structure CaptureOutcome where
  ui : UIState
  ok : Bool
  grabbed : Bool
  add_screenshot_called : Bool
deriving DecidableEq

/-- `process_screenshot_with_dialog` (screenshot_manager.py, lines 176-306), for a
valid pixmap: hide the ball if currently visible, run the dialog, restore per the
source's conditions, and on dialog completion apply the window handling of lines
264-299 (working mode shows the ball and hides the main window; otherwise the main
window is shown). Returns (ui, result, add_screenshot reached). -/
def process_screenshot_with_dialog (u : UIState) (df : DialogFlow) :
    UIState × Bool × Bool :=
  let fbv := u.float_ball_present && u.float_ball_visible
  let u1 := if fbv then hideBall u else u
  match df with
  | DialogFlow.dialogError =>
      let u2 := if fbv && u1.float_ball_present && u1.is_working_mode
        then showBall u1 else u1
      (u2, false, false)
  | DialogFlow.savedAccepted =>
      let u2 := if fbv && u1.float_ball_present && u1.is_working_mode
        then showBall u1 else u1
      let u3 := if u2.is_working_mode
        then hideMain (if u2.float_ball_present then showBall u2 else u2)
        else showMain u2
      (u3, true, true)
  | DialogFlow.cancelled =>
      let u2 := if fbv && u1.float_ball_present && u1.is_working_mode
        then showBall u1 else u1
      let u3 := if u2.is_working_mode
        then hideMain (if u2.float_ball_present then showBall u2 else u2)
        else showMain u2
      (u3, false, false)

/-- `take_fullscreen_screenshot` (screenshot_manager.py, lines 34-105): guard on an
open document, hide a visible float ball, grab, delegate to the dialog flow, and run
the restoration of lines 74-79 / 86-91 / 100-104. A grab failure raises into the
inner handler (restore when previously visible) and then the outer handler (show the
ball whenever in working mode). -/
def take_fullscreen_screenshot (doc_open : Bool) (u : UIState)
    (grab : GrabResult) (df : DialogFlow) : CaptureOutcome :=
  if !doc_open then ⟨u, false, false, false⟩
  else
    let fbv := u.float_ball_present && u.float_ball_visible
    let u1 := if fbv then hideBall u else u
    match grab with
    | GrabResult.noScreen =>
        let u2 := if fbv && u1.float_ball_present then showBall u1 else u1
        let u3 := if u2.is_working_mode && u2.float_ball_present then showBall u2 else u2
        ⟨u3, false, false, false⟩
    | GrabResult.nullPixmap =>
        let u2 := if fbv && u1.float_ball_present then showBall u1 else u1
        let u3 := if u2.is_working_mode && u2.float_ball_present then showBall u2 else u2
        ⟨u3, false, true, false⟩
    | GrabResult.ok =>
        let p := process_screenshot_with_dialog u1 df
        let u2 := if fbv && p.1.float_ball_present && p.1.is_working_mode
          then showBall p.1 else p.1
        ⟨u2, p.2.1, true, p.2.2⟩

/-- `start_area_capture` (screenshot_manager.py, lines 107-174): guard on an open
document; in full-screen mode (without forcing area capture) delegate to
`take_fullscreen_screenshot`; otherwise hide the main window and the float ball and
show the capture window. -/
def start_area_capture (doc_open : Bool) (u : UIState)
    (full_screen_mode force_area : Bool) (grab : GrabResult) (df : DialogFlow) :
    CaptureOutcome :=
  if !doc_open then ⟨u, false, false, false⟩
  else if full_screen_mode && !force_area then
    take_fullscreen_screenshot doc_open u grab df
  else
    let u1 := if u.main_window_visible then hideMain u else u
    let u2 := if u1.float_ball_present && u1.float_ball_visible then hideBall u1 else u1
    ⟨u2, true, false, false⟩

/-- C10: a capture trigger while no document is open fails immediately for both entry
points: no screen grab is performed, `add_screenshot` (hence no pending edit) is never
reached, and the UI state is left unchanged. -/
theorem no_document_capture_noop (u : UIState) (grab : GrabResult) (df : DialogFlow)
    (fsm fa : Bool) :
    take_fullscreen_screenshot false u grab df = ⟨u, false, false, false⟩ ∧
    start_area_capture false u fsm fa grab df = ⟨u, false, false, false⟩ := by
  constructor <;> rfl

/-- A working-mode state whose float ball exists but is hidden before the capture. -/
def preHiddenWorking : UIState := ⟨true, true, false, true⟩

/-- C8 fails on the code: in working mode with the float ball present but hidden
before the capture, a cancelled fullscreen capture ends with the ball shown — the
overlay visibility is not restored to its pre-capture state. -/
theorem overlay_restore_counterexample :
    (take_fullscreen_screenshot true preHiddenWorking GrabResult.ok
      DialogFlow.cancelled).ui.float_ball_visible = true ∧
    preHiddenWorking.float_ball_visible = false := by
  constructor <;> rfl

/-- C8 amended: with a document open and the float ball present, the ball's final
visibility after a fullscreen capture attempt is determined as follows — after a grab
failure it is shown iff it was visible before or the app is in working mode; after a
dialog error iff it was visible before and in working mode; after a completed dialog
(saved or cancelled) iff the app is in working mode, irrespective of the pre-capture
visibility. -/
theorem overlay_visibility_after_capture (wm vis mw : Bool) (df : DialogFlow) :
    ((take_fullscreen_screenshot true ⟨wm, true, vis, mw⟩ GrabResult.noScreen
        df).ui.float_ball_visible = (vis || wm)) ∧
    ((take_fullscreen_screenshot true ⟨wm, true, vis, mw⟩ GrabResult.nullPixmap
        df).ui.float_ball_visible = (vis || wm)) ∧
    ((take_fullscreen_screenshot true ⟨wm, true, vis, mw⟩ GrabResult.ok
        DialogFlow.dialogError).ui.float_ball_visible = (vis && wm)) ∧
    ((take_fullscreen_screenshot true ⟨wm, true, vis, mw⟩ GrabResult.ok
        DialogFlow.savedAccepted).ui.float_ball_visible = wm) ∧
    ((take_fullscreen_screenshot true ⟨wm, true, vis, mw⟩ GrabResult.ok
        DialogFlow.cancelled).ui.float_ball_visible = wm) := by
  cases wm <;> cases vis <;> cases mw <;> cases df <;> decide

/-- A formatted text run of a docx paragraph (text with bold/italic/underline). -/
structure Run where
  text : String
  bold : Bool
  italic : Bool
  underline : Bool
deriving DecidableEq

def plainRun (t : String) : Run := ⟨t, false, false, false⟩

/-- Relationship type of a docx part relationship (`RELATIONSHIP_TYPE`). -/
inductive RelKind where
  | image
  | other
deriving DecidableEq

/-- One entry of `document.part.rels`: id, type, target reference, binary payload. -/
structure Rel where
  rel_id : String
  reltype : RelKind
  target_ref : String
  blob : List Nat
deriving DecidableEq

/-- A docx paragraph: either a list of formatted runs or an inline picture (the
picture's payload is also carried here so the block view needs no id lookup). -/
inductive Paragraph where
  | runs (rs : List Run)
  | picture (rel_id : String) (blob : List Nat)
deriving DecidableEq

/-- `paragraph.text` of python-docx: the concatenated run texts; a picture paragraph
contributes the empty string. -/
def Paragraph.text : Paragraph → String
  | Paragraph.runs rs => rs.foldl (fun acc r => acc ++ r.text) ""
  | Paragraph.picture _ _ => ""

/-- An in-memory docx document: ordered paragraphs plus the part relationship list. -/
structure WordDoc where
  paragraphs : List Paragraph
  rels : List Rel
deriving DecidableEq

/-- `document.add_paragraph(text)`: appends a paragraph holding one default-formatted
run when the text is nonempty, and no run for the empty text. -/
def WordDoc.add_paragraph (d : WordDoc) (t : String) : WordDoc :=
  { d with paragraphs :=
      d.paragraphs ++ [Paragraph.runs (if t = "" then [] else [plainRun t])] }

/-- Fresh relationship id allocated by `add_picture`. -/
def freshRelId (d : WordDoc) : String := "rIdNew" ++ toString d.rels.length

/-- `document.add_picture(path, width=Inches(6))`: appends a picture paragraph and a
new image relationship carrying the image bytes. -/
def WordDoc.add_picture (d : WordDoc) (blob : List Nat) : WordDoc :=
  { paragraphs := d.paragraphs ++ [Paragraph.picture (freshRelId d) blob],
    rels := d.rels ++ [⟨freshRelId d, RelKind.image, "media/image", blob⟩] }

/-- A content block in the spec's sense: a text paragraph or an embedded image. -/
inductive Block where
  | text (s : String)
  | image (blob : List Nat)
deriving DecidableEq

/-- Content blocks of a paragraph list in order: nonempty text paragraphs and
pictures; blank spacer paragraphs are dropped (the spec's Block abstraction). -/
def blocksOf (ps : List Paragraph) : List Block :=
  ps.filterMap fun p =>
    match p with
    | Paragraph.picture _ b => some (Block.image b)
    | Paragraph.runs rs =>
        if (Paragraph.runs rs).text = "" then none
        else some (Block.text (Paragraph.runs rs).text)

/-- Content blocks of a document. -/
def WordDoc.blocks (d : WordDoc) : List Block := blocksOf d.paragraphs

/-- State of `DocumentManager` (`src/core/document_manager.py`) relevant to saving:
the open document, its path, the recorded original paragraph texts and relationship
count (`save_original_content_info`, lines 666-683), the relationship ids recorded by
a successful `save_document` (absent before the first save — the source only sets
`original_rel_ids` at line 468), the recorded file mtime, and the staged pending
screenshot (scratch image path and caption, empty caption meaning none). -/
structure DMState where
  word_doc : WordDoc
  word_path : String
  original_paragraphs : List String
  original_rels_count : Nat
  original_rel_ids : Option (List String)
  last_modified_time : Nat
  current_image_path : Option String
  current_text_description : String
deriving DecidableEq

/-- The BaselineSnapshot portion of the manager state: paragraph texts (hence the
paragraph count), relationship count, and the recorded relationship ids. -/
def baseline (s : DMState) : List String × Nat × Option (List String) :=
  (s.original_paragraphs, s.original_rels_count, s.original_rel_ids)

/-- The user's choice in the conflict dialog (lines 247-267). -/
inductive ConflictChoice where
  | merge
  | overwrite
  | cancel
deriving DecidableEq

/-- The user's choice in the merge-failure dialog (lines 424-444). -/
inductive MergeFailChoice where
  | overwrite
  | cancel
deriving DecidableEq

/-- Environment of one `save_document` call: the on-disk file (parsed document and
mtime; `none` when absent), the two dialog decisions, the file mtime after a
successful write, and the bytes of scratch image files. -/
structure SaveEnv where
  disk : Option (WordDoc × Nat)
  conflict_choice : ConflictChoice
  merge_fail_choice : MergeFailChoice
  new_mtime : Nat
  read_file : String → List Nat

/-- A filesystem operation performed by a write step. -/
inductive FsOp where
  | writeFile (path : String)
  | copyFile (src dst : String)
  | renameFile (src dst : String)
  | removeFile (path : String)
deriving DecidableEq

/-- Filesystem operations of the write step of `save_document` (lines 455-476,
success path): a best-effort `shutil.copy2` of the target to `.bak`, then a direct
`doc.save` onto the target path. -/
def save_write_ops (path : String) : List FsOp :=
  [FsOp.copyFile path (path ++ ".bak"), FsOp.writeFile path]

/-- Filesystem operations of the initial write in `create_document` (lines 98-116,
success path): write the temp sibling, optionally rotate an existing target to
`.bak`, then rename the temp file onto the target. -/
def create_write_ops (path : String) (target_exists bak_exists : Bool) : List FsOp :=
  [FsOp.writeFile (path ++ ".tmp")] ++
  (if target_exists then
      (if bak_exists then [FsOp.removeFile (path ++ ".bak")] else []) ++
      [FsOp.renameFile path (path ++ ".bak")]
    else []) ++
  [FsOp.renameFile (path ++ ".tmp") path]

/-- Which branch the merge path takes. -/
inductive MergeBranch where
  | unchanged
  | appendCopied
  | replaceBase
deriving DecidableEq

/-- Branch selector of the merge path (document_manager.py, lines 279-305): the code
compares the reloaded external document's paragraph count with the CURRENT in-memory
document's paragraph count (`len(self.word_doc.paragraphs)`, line 280). -/
def mergeBranch (s : DMState) (ext : WordDoc) : MergeBranch :=
  if ext.paragraphs.length = s.word_doc.paragraphs.length then MergeBranch.unchanged
  else if ext.paragraphs.length > s.word_doc.paragraphs.length then
    MergeBranch.appendCopied
  else MergeBranch.replaceBase

/-- Modelled from the spec: the branch selector as the spec words it — the external
paragraph count compared against the stored BaselineSnapshot's paragraph count.
Declared only to be compared with `mergeBranch`. -/
def specMergeBranch (s : DMState) (ext : WordDoc) : MergeBranch :=
  if ext.paragraphs.length = s.original_paragraphs.length then MergeBranch.unchanged
  else if ext.paragraphs.length > s.original_paragraphs.length then
    MergeBranch.appendCopied
  else MergeBranch.replaceBase

/-- Paragraph copy used by the growth branch (lines 293-297): `new_para.text =
para.text` keeps only the plain concatenated text in one default-formatted run. -/
def copy_paragraph_text (p : Paragraph) : Paragraph :=
  Paragraph.runs [plainRun p.text]

/-- Result of the merge path: a merged document, or a failure (an exception inside
the merge `try`), with the in-memory document as already mutated at that point. -/
inductive MergeResult where
  | ok (d : WordDoc)
  | failed (d : WordDoc)
deriving DecidableEq

/-- Merge path of `save_document` (lines 273-419), faithful to the source including
its slip: in the paragraph-growth branch the trailing external paragraphs are copied
as plain text and then line 341 reads the local `manually_added_image`, which that
branch never assigned, raising UnboundLocalError into the merge-failure handler. In
the shrink branch the external document becomes the base, the staged pending caption
and image are re-appended, and (only when no pending image exists) the relationship
diff runs against the recorded ids — all current ids count as new when none were
recorded (line 345). Python's unordered set iteration for the diff is modelled as the
document's relationship order. -/
def merge_step (s : DMState) (ext : WordDoc) (read_file : String → List Nat) :
    MergeResult :=
  match mergeBranch s ext with
  | MergeBranch.unchanged => MergeResult.ok s.word_doc
  | MergeBranch.appendCopied =>
      let copied := (ext.paragraphs.drop s.word_doc.paragraphs.length).map
        copy_paragraph_text
      MergeResult.failed
        { s.word_doc with paragraphs := s.word_doc.paragraphs ++ copied }
  | MergeBranch.replaceBase =>
      match s.current_image_path with
      | some img_path =>
          let d1 := if s.current_text_description = "" then ext
            else ext.add_paragraph s.current_text_description
          let d2 := (d1.add_picture (read_file img_path)).add_paragraph ""
          MergeResult.ok d2
      | none =>
          let base_ids := s.original_rel_ids.getD []
          let new_rels := ext.rels.filter fun r => !(base_ids.contains r.rel_id)
          let img_rels := new_rels.filter fun r => decide (r.reltype = RelKind.image)
          MergeResult.ok (img_rels.foldl (fun d r => d.add_picture r.blob) ext)

/-- Result of `save_document`: resulting manager state, boolean result, whether the
conflict dialog and the merge-failure dialog were shown, and the filesystem
operations of the write step. -/
structure SaveOutput where
  state : DMState
  ok : Bool
  conflict_dialog_shown : Bool
  merge_fail_dialog_shown : Bool
  fs_ops : List FsOp

/-- Write step of `save_document` (lines 455-476): backup copy plus direct write, then
the baseline bookkeeping of lines 466-474 — relationship count and ids are refreshed
from the saved document and the mtime is re-read; `original_paragraphs` is NOT
refreshed (the save path never calls `save_original_content_info`). -/
def write_step (s : DMState) (d : WordDoc) (conflict merge_fail : Bool)
    (new_mtime : Nat) : SaveOutput :=
  { state := { s with
      word_doc := d,
      original_rels_count := d.rels.length,
      original_rel_ids := some (d.rels.map Rel.rel_id),
      last_modified_time := new_mtime },
    ok := true,
    conflict_dialog_shown := conflict,
    merge_fail_dialog_shown := merge_fail,
    fs_ops := save_write_ops s.word_path }

/-- `save_document` (document_manager.py, lines 230-499): mtime-based conflict
detection (lines 238-256), the merge/overwrite/cancel decision, the merge path, the
merge-failure decision, and the write step (modelled on its success path). -/
def save_document (s : DMState) (env : SaveEnv) : SaveOutput :=
  match env.disk with
  | none => write_step s s.word_doc false false env.new_mtime
  | some (ext, m) =>
      if m = s.last_modified_time then
        write_step s s.word_doc false false env.new_mtime
      else
        match env.conflict_choice with
        | ConflictChoice.cancel =>
            { state := s, ok := false, conflict_dialog_shown := true,
              merge_fail_dialog_shown := false, fs_ops := [] }
        | ConflictChoice.overwrite => write_step s s.word_doc true false env.new_mtime
        | ConflictChoice.merge =>
            match merge_step s ext env.read_file with
            | MergeResult.ok d =>
                write_step { s with word_doc := d } d true false env.new_mtime
            | MergeResult.failed d =>
                match env.merge_fail_choice with
                | MergeFailChoice.cancel =>
                    { state := { s with word_doc := d }, ok := false,
                      conflict_dialog_shown := true,
                      merge_fail_dialog_shown := true, fs_ops := [] }
                | MergeFailChoice.overwrite =>
                    write_step { s with word_doc := d } d true true env.new_mtime

/-- `add_screenshot` (document_manager.py, lines 501-619), for a valid document and
pixmap: stage the pending image and caption (lines 577-579), append the caption
paragraph (if nonempty), the picture and a blank spacer to the in-memory document
(lines 588-596), auto-save (line 601), then clear the pending fields (lines 606-608).
The boolean result mirrors the source: `true` once the content was appended, even if
the auto-save failed. -/
def add_screenshot (s : DMState) (pixmap_null : Bool) (text : String)
    (scratch_path : String) (env : SaveEnv) : DMState × Bool :=
  if pixmap_null then (s, false)
  else
    let s1 := { s with current_image_path := some scratch_path,
                       current_text_description := text }
    let d0 := if text = "" then s1.word_doc else s1.word_doc.add_paragraph text
    let d1 := (d0.add_picture (env.read_file scratch_path)).add_paragraph ""
    let s2 := { s1 with word_doc := d1 }
    let r := save_document s2 env
    ({ r.state with current_image_path := none, current_text_description := "" }, true)

lemma append_suffix_ne (p t : String) (h : 0 < t.length) : p ++ t ≠ p := by
  intro he
  have h2 := congrArg String.length he
  rw [String.length_append] at h2
  omega

/-- An operation is compatible with C1's wording for a given target: it never writes,
copies onto, or removes the target, and any rename onto the target comes from the
target's `.tmp` sibling. -/
def opAllowedForTarget (target : String) : FsOp → Prop
  | FsOp.writeFile p => p ≠ target
  | FsOp.copyFile _ dst => dst ≠ target
  | FsOp.renameFile src dst => dst = target → src = target ++ ".tmp"
  | FsOp.removeFile p => p ≠ target

instance (target : String) (op : FsOp) : Decidable (opAllowedForTarget target op) := by
  cases op <;> simp only [opAllowedForTarget] <;> infer_instance

/-- C1's property of a write step: the temp sibling is written, and the target is
only ever changed by renaming that temp file onto it. -/
def writesViaTempOnly (ops : List FsOp) (target : String) : Prop :=
  FsOp.writeFile (target ++ ".tmp") ∈ ops ∧ ∀ op ∈ ops, opAllowedForTarget target op

instance (ops : List FsOp) (target : String) :
    Decidable (writesViaTempOnly ops target) := by
  unfold writesViaTempOnly
  infer_instance

def exDoc : WordDoc := ⟨[Paragraph.runs [plainRun "hello"]], []⟩

def exState : DMState := ⟨exDoc, "doc.docx", ["hello"], 0, some [], 10, none, ""⟩

def exEnv : SaveEnv :=
  ⟨some (exDoc, 10), ConflictChoice.merge, MergeFailChoice.cancel, 11, fun _ => []⟩

/-- C1 fails on the code: a plain `save_document` of an existing document writes the
target path directly (after a best-effort `.bak` copy); it writes no `.tmp` sibling
and performs no rename. -/
theorem save_write_not_via_temp_counterexample :
    ¬ writesViaTempOnly (save_document exState exEnv).fs_ops exState.word_path := by
  decide

lemma save_ok_write (s : DMState) (env : SaveEnv)
    (h : (save_document s env).ok = true) :
    (save_document s env).fs_ops = save_write_ops s.word_path ∧
    (save_document s env).state.original_rels_count =
      (save_document s env).state.word_doc.rels.length ∧
    (save_document s env).state.original_rel_ids =
      some ((save_document s env).state.word_doc.rels.map Rel.rel_id) ∧
    (save_document s env).state.original_paragraphs = s.original_paragraphs ∧
    (save_document s env).state.last_modified_time = env.new_mtime ∧
    (save_document s env).state.word_path = s.word_path := by
  obtain ⟨disk, cc, mfc, nm, rf⟩ := env
  simp only [save_document] at h ⊢
  rcases disk with _ | ⟨ext, m⟩
  · simp [write_step]
  · by_cases hm : m = s.last_modified_time
    · simp [hm, write_step]
    · simp only [if_neg hm] at h ⊢
      cases cc
      · cases hms : merge_step s ext rf <;> simp only [hms] at h ⊢
        · simp [write_step]
        · cases mfc <;> simp_all [write_step]
      · simp [write_step]
      · simp_all

lemma create_write_ops_via_temp (p : String) (te be : Bool) :
    writesViaTempOnly (create_write_ops p te be) p := by
  have htmp : p ++ ".tmp" ≠ p := append_suffix_ne p ".tmp" (by decide)
  have hbak : p ++ ".bak" ≠ p := append_suffix_ne p ".bak" (by decide)
  constructor
  · simp [create_write_ops]
  · intro op hop
    have hsup : op = FsOp.writeFile (p ++ ".tmp") ∨
        op = FsOp.removeFile (p ++ ".bak") ∨
        op = FsOp.renameFile p (p ++ ".bak") ∨
        op = FsOp.renameFile (p ++ ".tmp") p := by
      simp only [create_write_ops, List.mem_append, List.mem_singleton] at hop
      cases te <;> cases be <;> simp_all <;> tauto
    rcases hsup with rfl | rfl | rfl | rfl <;>
      simp [opAllowedForTarget, htmp, hbak]

/-- C1 amended: for every successful `save_document` the write step is a best-effort
copy of the target to `.bak` followed by a direct write of the target path itself —
not a temp-write plus rename — while the initial write in `create_document` does
write the `.tmp` sibling and only changes the target by the final rename. -/
theorem save_write_direct (s : DMState) (env : SaveEnv)
    (h : (save_document s env).ok = true) :
    (save_document s env).fs_ops =
      [FsOp.copyFile s.word_path (s.word_path ++ ".bak"),
        FsOp.writeFile s.word_path] ∧
    ∀ te be : Bool, writesViaTempOnly (create_write_ops s.word_path te be)
      s.word_path := by
  refine ⟨(save_ok_write s env h).1, fun te be => create_write_ops_via_temp _ te be⟩

/-- Concrete instance of C1's amended statement: a conflict-free save. -/
theorem save_write_direct_witness :
    ((save_document exState exEnv).ok = true) ∧
    ((save_document exState exEnv).fs_ops =
      [FsOp.copyFile exState.word_path (exState.word_path ++ ".bak"),
        FsOp.writeFile exState.word_path] ∧
    ∀ te be : Bool, writesViaTempOnly (create_write_ops exState.word_path te be)
      exState.word_path) :=
  ⟨by decide, save_write_direct exState exEnv (by decide)⟩

def c3State : DMState :=
  ⟨⟨[Paragraph.runs [plainRun "a"], Paragraph.runs [plainRun "b"],
      Paragraph.runs [plainRun "cap"], Paragraph.picture "rIdNew0" [7]],
    [⟨"rIdNew0", RelKind.image, "media/image", [7]⟩]⟩,
    "doc.docx", ["a", "b"], 1, some ["rIdNew0"], 3, some "scratch.png", "cap"⟩

def c3Ext : WordDoc :=
  ⟨[Paragraph.runs [plainRun "a"], Paragraph.runs [plainRun "b"],
    Paragraph.runs [plainRun "x"]], []⟩

/-- C3 fails on the code: with a baseline of 2 paragraphs, an in-memory document of 4
paragraphs (pending caption and image already appended) and an external copy of 3
paragraphs, the code compares 3 against the in-memory 4 and picks the replace-base
branch, while comparing against the baseline 2 would pick the append-copy branch. -/
theorem merge_branch_counterexample :
    mergeBranch c3State c3Ext = MergeBranch.replaceBase ∧
    specMergeBranch c3State c3Ext = MergeBranch.appendCopied ∧
    mergeBranch c3State c3Ext ≠ specMergeBranch c3State c3Ext ∧
    merge_step c3State c3Ext (fun _ => [9]) =
      MergeResult.ok (((c3Ext.add_paragraph "cap").add_picture [9]).add_paragraph "")
    := by
  refine ⟨by decide, by decide, by decide, by decide⟩

/-- C3 amended: the branch selection of the merge path is a comparison of the external
paragraph count against the CURRENT in-memory document's paragraph count; it is
invariant under any change of the stored baseline paragraph texts. -/
theorem merge_branch_in_memory (s : DMState) (ext : WordDoc) (bl : List String) :
    mergeBranch { s with original_paragraphs := bl } ext = mergeBranch s ext ∧
    (mergeBranch s ext = MergeBranch.appendCopied ↔
      s.word_doc.paragraphs.length < ext.paragraphs.length) ∧
    (mergeBranch s ext = MergeBranch.replaceBase ↔
      ext.paragraphs.length < s.word_doc.paragraphs.length) := by
  unfold mergeBranch
  refine ⟨rfl, ?_, ?_⟩ <;> split_ifs <;> simp_all <;> omega

def c4Doc : WordDoc :=
  ⟨[Paragraph.runs [plainRun "t1"], Paragraph.runs [plainRun "t2"]],
    [⟨"rId1", RelKind.image, "media/image1.png", [1, 2]⟩]⟩

def c4Ext : WordDoc :=
  ⟨c4Doc.paragraphs ++ [Paragraph.runs [plainRun "t3"]],
    c4Doc.rels ++ [⟨"rId2", RelKind.image, "media/image2.png", [3, 4]⟩]⟩

def c4State : DMState := ⟨c4Doc, "doc.docx", ["t1", "t2"], 1, some ["rId1"], 5, none, ""⟩

def c4Env : SaveEnv :=
  ⟨some (c4Ext, 7), ConflictChoice.merge, MergeFailChoice.cancel, 9, fun _ => []⟩

/-- C4 (code bug): one new external image relationship plus external paragraph growth;
a Merge decision reaches the growth branch, which copies the trailing paragraph and
then reads the never-assigned local `manually_added_image` (line 341), raising
UnboundLocalError into the merge-failure dialog — no image is appended and the merge
does not complete. -/
theorem merge_growth_unbound_local_no_image :
    (save_document c4State c4Env).merge_fail_dialog_shown = true ∧
    (save_document c4State c4Env).ok = false ∧
    (save_document c4State c4Env).state.word_doc.rels = c4Doc.rels ∧
    (save_document c4State c4Env).state.word_doc.paragraphs =
      c4Doc.paragraphs ++ [Paragraph.runs [plainRun "t3"]] ∧
    merge_step c4State c4Ext c4Env.read_file =
      MergeResult.failed
        ⟨c4Doc.paragraphs ++ [Paragraph.runs [plainRun "t3"]], c4Doc.rels⟩ := by
  refine ⟨by decide, by decide, by decide, by decide, by decide⟩

/-- C5: with the target file present on disk, `save_document` presents the conflict
decision iff the on-disk mtime differs from `last_modified_time`; an equal mtime goes
straight to the write step — no conflict or merge-failure handling — and succeeds. -/
theorem conflict_iff_mtime_changed (s : DMState) (env : SaveEnv) (ext : WordDoc)
    (m : Nat) (hd : env.disk = some (ext, m)) :
    ((save_document s env).conflict_dialog_shown = true ↔
      m ≠ s.last_modified_time) ∧
    (m = s.last_modified_time →
      (save_document s env).ok = true ∧
      (save_document s env).merge_fail_dialog_shown = false ∧
      (save_document s env).fs_ops = save_write_ops s.word_path) := by
  simp only [save_document, hd]
  by_cases hm : m = s.last_modified_time
  · simp [hm, write_step]
  · simp only [if_neg hm]
    cases env.conflict_choice
    · cases hms : merge_step s ext env.read_file
      · simp [hm, write_step]
      · cases env.merge_fail_choice <;> simp [hm, write_step]
    · simp [hm, write_step]
    · simp [hm]

def c5Env : SaveEnv :=
  ⟨some (exDoc, 12), ConflictChoice.cancel, MergeFailChoice.cancel, 13, fun _ => []⟩

/-- Concrete instance of C5: an out-of-band mtime 12 against a recorded mtime 10. -/
theorem conflict_iff_mtime_changed_witness :
    (c5Env.disk = some (exDoc, 12)) ∧
    (((save_document exState c5Env).conflict_dialog_shown = true ↔
        (12 : Nat) ≠ exState.last_modified_time) ∧
      ((12 : Nat) = exState.last_modified_time →
        (save_document exState c5Env).ok = true ∧
        (save_document exState c5Env).merge_fail_dialog_shown = false ∧
        (save_document exState c5Env).fs_ops = save_write_ops exState.word_path)) :=
  ⟨rfl, conflict_iff_mtime_changed exState c5Env exDoc 12 rfl⟩

/-- C6: a second save right after a successful save, with no external change (the
on-disk mtime is the one recorded by the first save) and no in-memory change, shows
no conflict decision, succeeds, and leaves the BaselineSnapshot identical. -/
theorem save_idempotent_baseline (s : DMState) (env1 env2 : SaveEnv) (d2 : WordDoc)
    (h1 : (save_document s env1).ok = true)
    (h2 : env2.disk = some (d2, (save_document s env1).state.last_modified_time)) :
    (save_document (save_document s env1).state env2).conflict_dialog_shown
      = false ∧
    (save_document (save_document s env1).state env2).ok = true ∧
    baseline (save_document (save_document s env1).state env2).state =
      baseline (save_document s env1).state := by
  obtain ⟨hops, hrc, hri, hop, hlm, hwp⟩ := save_ok_write s env1 h1
  have hstep : save_document (save_document s env1).state env2 =
      write_step (save_document s env1).state
        (save_document s env1).state.word_doc false false env2.new_mtime := by
    simp [save_document, h2]
  rw [hstep]
  refine ⟨rfl, rfl, ?_⟩
  simp only [baseline, write_step]
  rw [hrc, hri]

def c6Env1 : SaveEnv := ⟨none, ConflictChoice.merge, MergeFailChoice.cancel, 21,
  fun _ => []⟩

def c6Env2 : SaveEnv := ⟨some (exDoc, 21), ConflictChoice.cancel,
  MergeFailChoice.cancel, 22, fun _ => []⟩

/-- Concrete instance of C6: two consecutive saves with no intervening change. -/
theorem save_idempotent_baseline_witness :
    ((save_document exState c6Env1).ok = true ∧
      c6Env2.disk =
        some (exDoc, (save_document exState c6Env1).state.last_modified_time)) ∧
    ((save_document (save_document exState c6Env1).state c6Env2).conflict_dialog_shown
        = false ∧
      (save_document (save_document exState c6Env1).state c6Env2).ok = true ∧
      baseline (save_document (save_document exState c6Env1).state c6Env2).state =
        baseline (save_document exState c6Env1).state) :=
  ⟨⟨by decide, by decide⟩,
    save_idempotent_baseline exState c6Env1 c6Env2 exDoc (by decide) (by decide)⟩

def c9BoldPara : Paragraph := Paragraph.runs [⟨"bold text", true, false, false⟩]

def c9State : DMState := ⟨⟨[Paragraph.runs [plainRun "base"]], []⟩, "doc.docx",
  ["base"], 0, some [], 0, none, ""⟩

def c9Ext : WordDoc := ⟨[Paragraph.runs [plainRun "base"], c9BoldPara], []⟩

/-- C9 fails on the code: the growth-branch copy keeps only the plain text of the
copied external paragraph — its bold run comes out as a default-formatted run. -/
theorem merge_copy_drops_formatting_counterexample :
    merge_step c9State c9Ext (fun _ => []) =
      MergeResult.failed ⟨[Paragraph.runs [plainRun "base"],
        Paragraph.runs [plainRun "bold text"]], []⟩ ∧
    copy_paragraph_text c9BoldPara ≠ c9BoldPara ∧
    (copy_paragraph_text c9BoldPara).text = c9BoldPara.text := by
  refine ⟨by decide, by decide, by decide⟩

/-- C9 amended: in the paragraph-growth branch every copied paragraph is reduced to a
single default-formatted run holding the source paragraph's plain text (run
attributes are not preserved), and the branch then aborts into the merge-failure
handler. -/
theorem merge_copy_plain_text (s : DMState) (ext : WordDoc)
    (h : s.word_doc.paragraphs.length < ext.paragraphs.length)
    (rf : String → List Nat) :
    merge_step s ext rf = MergeResult.failed
      ⟨s.word_doc.paragraphs ++
        (ext.paragraphs.drop s.word_doc.paragraphs.length).map
          (fun q => Paragraph.runs [plainRun q.text]),
        s.word_doc.rels⟩ := by
  unfold merge_step mergeBranch
  rw [if_neg (by omega), if_pos (by omega)]
  rfl

/-- Concrete instance of C9's amended statement. -/
theorem merge_copy_plain_text_witness :
    (c9State.word_doc.paragraphs.length < c9Ext.paragraphs.length) ∧
    merge_step c9State c9Ext (fun _ => []) =
      MergeResult.failed
        ⟨c9State.word_doc.paragraphs ++
          (c9Ext.paragraphs.drop c9State.word_doc.paragraphs.length).map
            (fun q => Paragraph.runs [plainRun q.text]),
          c9State.word_doc.rels⟩ :=
  ⟨by decide, merge_copy_plain_text c9State c9Ext (by decide) (fun _ => [])⟩

lemma str_empty_append (s : String) : "" ++ s = s := rfl

lemma merge_step_replaceBase (s : DMState) (ext : WordDoc) (rf : String → List Nat)
    (h : ext.paragraphs.length < s.word_doc.paragraphs.length)
    (ip : String) (hip : s.current_image_path = some ip)
    (ht : s.current_text_description ≠ "") :
    merge_step s ext rf =
      MergeResult.ok (((ext.add_paragraph s.current_text_description).add_picture
        (rf ip)).add_paragraph "") := by
  unfold merge_step mergeBranch
  rw [if_neg (by omega), if_neg (by omega), hip]
  simp only [if_neg ht]

lemma save_merge_replace_with_pending (s : DMState) (ext : WordDoc) (env : SaveEnv)
    (m : Nat) (hd : env.disk = some (ext, m)) (hm : m ≠ s.last_modified_time)
    (hc : env.conflict_choice = ConflictChoice.merge)
    (h : ext.paragraphs.length < s.word_doc.paragraphs.length)
    (ip : String) (hip : s.current_image_path = some ip)
    (ht : s.current_text_description ≠ "") :
    save_document s env =
      write_step
        { s with word_doc := ((ext.add_paragraph
            s.current_text_description).add_picture
            (env.read_file ip)).add_paragraph "" }
        (((ext.add_paragraph s.current_text_description).add_picture
            (env.read_file ip)).add_paragraph "")
        true false env.new_mtime := by
  unfold save_document
  rw [hd]
  simp only [if_neg hm, hc, merge_step_replaceBase s ext env.read_file h ip hip ht]

lemma blocksOf_append (a b : List Paragraph) :
    blocksOf (a ++ b) = blocksOf a ++ blocksOf b := by
  simp [blocksOf, List.filterMap_append]

lemma blocksOf_four (t1 t2 rid : String) (img : List Nat)
    (h1 : t1 ≠ "") (h2 : t2 ≠ "") :
    blocksOf [Paragraph.runs [plainRun t1], Paragraph.runs [plainRun t2],
      Paragraph.picture rid img, Paragraph.runs []] =
      [Block.text t1, Block.text t2, Block.image img] := by
  simp [blocksOf, Paragraph.text, plainRun, str_empty_append, h1, h2]

/-- Starting manager state of Scenario B: document `d0` just saved at mtime `m0`,
with a freshly captured baseline and no pending screenshot. -/
def scenarioB_start (d0 : WordDoc) (p : String) (m0 : Nat) : DMState :=
  ⟨d0, p, d0.paragraphs.map Paragraph.text, d0.rels.length,
    some (d0.rels.map Rel.rel_id), m0, none, ""⟩

/-- The on-disk copy of Scenario B: `d0` with paragraph "X" appended externally. -/
def scenarioB_ext (d0 : WordDoc) : WordDoc :=
  ⟨d0.paragraphs ++ [Paragraph.runs [plainRun "X"]], d0.rels⟩

/-- Save environment of Scenario B: the externally modified copy on disk at a new
mtime `m1`, and the user choosing Merge in the conflict dialog. -/
def scenarioB_env (d0 : WordDoc) (img : List Nat) (m1 mw : Nat) : SaveEnv :=
  ⟨some (scenarioB_ext d0, m1), ConflictChoice.merge, MergeFailChoice.cancel, mw,
    fun _ => img⟩

/-- Scenario B run: appending capture `img` with caption "B" via `add_screenshot`. -/
def scenarioB_result (d0 : WordDoc) (p scratch : String) (img : List Nat)
    (m0 m1 mw : Nat) : DMState × Bool :=
  add_screenshot (scenarioB_start d0 p m0) false "B" scratch
    (scenarioB_env d0 img m1 mw)

/-- C2 (Scenario B): after saving `d0`, externally appending paragraph "X" on disk,
then in-app appending a capture with caption "B" and saving with Merge selected, the
resulting document is `d0`'s paragraphs, then "X", then "B", then the image (then the
code's blank spacer paragraph); in the spec's block view the order is exactly the
original blocks, "X", "B", image. -/
theorem scenarioB_merge_order (d0 : WordDoc) (p scratch : String) (img : List Nat)
    (m0 m1 mw : Nat) (hm : m1 ≠ m0) :
    (scenarioB_result d0 p scratch img m0 m1 mw).2 = true ∧
    (scenarioB_result d0 p scratch img m0 m1 mw).1.word_doc.paragraphs =
      d0.paragraphs ++
        [Paragraph.runs [plainRun "X"], Paragraph.runs [plainRun "B"],
          Paragraph.picture ("rIdNew" ++ toString d0.rels.length) img,
          Paragraph.runs []] ∧
    (scenarioB_result d0 p scratch img m0 m1 mw).1.word_doc.blocks =
      d0.blocks ++ [Block.text "X", Block.text "B", Block.image img] := by
  have hB : ("B" : String) ≠ "" := by decide
  have hX : ("X" : String) ≠ "" := by decide
  simp only [scenarioB_result, add_screenshot, scenarioB_env, scenarioB_start,
    if_neg, Bool.false_eq_true, reduceIte]
  rw [save_merge_replace_with_pending _ (scenarioB_ext d0) _ m1 rfl hm rfl
    (by simp [scenarioB_ext, WordDoc.add_paragraph, WordDoc.add_picture])
    scratch rfl hB]
  constructor
  · trivial
  have hboth : ∀ d : WordDoc, d.paragraphs = d0.paragraphs ++
      [Paragraph.runs [plainRun "X"], Paragraph.runs [plainRun "B"],
        Paragraph.picture ("rIdNew" ++ toString d0.rels.length) img,
        Paragraph.runs []] →
      (d.paragraphs = d0.paragraphs ++
        [Paragraph.runs [plainRun "X"], Paragraph.runs [plainRun "B"],
          Paragraph.picture ("rIdNew" ++ toString d0.rels.length) img,
          Paragraph.runs []] ∧
      d.blocks = d0.blocks ++ [Block.text "X", Block.text "B", Block.image img]) := by
    intro d hd
    refine ⟨hd, ?_⟩
    show blocksOf d.paragraphs = _
    rw [hd, blocksOf_append, blocksOf_four "X" "B" _ img hX hB]
    rfl
  apply hboth
  simp [write_step, scenarioB_ext, WordDoc.add_paragraph, WordDoc.add_picture,
    freshRelId, hB]

/-- Concrete instance of C2 (Scenario B), on a one-paragraph starting document. -/
theorem scenarioB_merge_order_witness :
    ((31 : Nat) ≠ 30) ∧
    ((scenarioB_result exDoc "doc.docx" "scratch.png" [5] 30 31 32).2 = true ∧
    (scenarioB_result exDoc "doc.docx" "scratch.png" [5] 30 31 32).1.word_doc.paragraphs
      = exDoc.paragraphs ++
        [Paragraph.runs [plainRun "X"], Paragraph.runs [plainRun "B"],
          Paragraph.picture ("rIdNew" ++ toString exDoc.rels.length) [5],
          Paragraph.runs []] ∧
    (scenarioB_result exDoc "doc.docx" "scratch.png" [5] 30 31 32).1.word_doc.blocks
      = exDoc.blocks ++ [Block.text "X", Block.text "B", Block.image [5]]) :=
  ⟨by decide, scenarioB_merge_order exDoc "doc.docx" "scratch.png" [5] 30 31 32
    (by decide)⟩

end ScreenShotTool
